import Mathlib

/-!
Shallow embedding of the OpenPubkey provider verifier
(`verifier/providerverifier.go`) and the MFA cosigner core
(`cosigner` package), with theorems settling the specification
claims about them.

Go `map` values are modelled as association lists with first-match
lookup (a prepended binding shadows older ones, matching overwrite
semantics of Go map assignment).  Go functions that can return an
`error` are modelled in the `GoOut` outcome type, which additionally
has a `panic` constructor for Go runtime panics (failed unchecked
type assertions, nil-pointer dereferences).  External cryptographic
primitives (JWS signature verification, GQ verification, OIDC key
discovery, HMAC) live outside the verifier and cosigner source and
are modelled as oracle fields of an environment record; each field's
doc states exactly which call outcome it abstracts.
-/

/-- JSON values as produced by Go's `json.Unmarshal` into `any`:
strings, numbers, booleans, null and arrays.  (Objects never occur in
the positions the verifier inspects; a number constructor stands in
for every non-string scalar.) -/
inductive Json where
  | str : String → Json
  | num : Int → Json
  | bool : Bool → Json
  | null : Json
  | arr : List Json → Json

/-- Go interface-equality comparison of an `any` value against a
`string`, as in `commitment != string(expectedCommitment)`: true iff
the dynamic type is `string` and the values are equal. -/
def Json.eqStr : Json → String → Bool
  | .str t, s => t = s
  | _, _ => false

/-- Whether the dynamic type of the unmarshalled value is `string`
(the test performed by a Go type assertion `x.(string)`). -/
def Json.isString : Json → Bool
  | .str _ => true
  | _ => false

/-- Outcome of a Go call: a value, an `error`, or a runtime panic. -/
inductive GoOut (ε : Type) (α : Type) where
  | ok : α → GoOut ε α
  | err : ε → GoOut ε α
  | panic : GoOut ε α
deriving DecidableEq

/-- First-match association-list lookup, the model of Go map lookup
on the claim maps and cosigner state maps. -/
def alookup {α : Type} : List (String × α) → String → Option α
  | [], _ => none
  | (k, v) :: rest, key => if k = key then some v else alookup rest key

/-- JWS signature algorithms distinguished by the verifier.  `ES256`
stands for any algorithm other than `RS256` and `GQ256`. -/
inductive SigAlg where
  | RS256
  | GQ256
  | ES256
deriving DecidableEq

/-- Rendering of an algorithm as Go's `alg.String()`. -/
def SigAlg.name : SigAlg → String
  | .RS256 => "RS256"
  | .GQ256 => "GQ256"
  | .ES256 => "ES256"

/-- Error sites of the provider verifier, one constructor per
distinct `return`-an-error site in `providerverifier.go`.  The
`fmt.Errorf("...: %w", err)` wrappers in `VerifyProvider` preserve
the wrapped error, so the inner constructor is returned unchanged. -/
inductive VErr where
  | payloadUnmarshalFailed
  | gqCommitmentRequiresGQOnly
  | gqCommitmentRequiresEmptyClaim
  | gqCommitmentRequiresSkipAud
  | audienceMismatch
  | missingAudience
  | providerAlgMissing
  | nonGQUnsupported
  | opKeyFetchFailed
  | opSigInvalid
  | cicValuesFailed
  | cicHashFailed
  | gqAudClaimMissing
  | gqAudNoPKTokenMark
  | gqCommitmentMissing
  | commitmentClaimMissing
  | commitmentMismatch
  | cicValuesFailedAtSig
  | cicSigInvalid
  | gqMissingAlgHeader
  | gqSigNotGQ
  | gqMalformedHeaders
  | gqOrigAlgNotRS256
  | gqMissingIssuer
  | gqIssuerMismatch
  | gqKeyFetchFailed
  | gqJwkNotRSA
  | gqVerifyError
  | gqSigInvalid
deriving DecidableEq

/-- `ProviderVerifierOpts` from `providerverifier.go` (the
`DiscoverPublicKey` override is carried by `VerifyEnv` instead). -/
structure ProviderVerifierOpts where
  clientID : String
  skipClientIDCheck : Bool
  skipExpirationCheck : Bool
  gqOnly : Bool
  gqCommitment : Bool

/-- `DefaultProviderVerifier` from `providerverifier.go`. -/
structure DefaultProviderVerifier where
  issuer : String
  commitmentClaim : String
  options : ProviderVerifierOpts

/-- Result of `cic.Hash()` on the CIC values of a PK Token:
`none` models a hashing error. -/
structure CicRec where
  hash : Option String

/-- The observable parts of a `pktoken.PKToken` used by the verifier
and cosigner.  `payload` is the result of `json.Unmarshal` on
`pkt.Payload` (`none` models a malformed payload); `providerAlg` is
`pkt.ProviderAlgorithm()`; `cic` is `pkt.GetCicValues()` (`none`
models its error); `gqCicHeader` is `pkt.Op.ProtectedHeaders().Get("cic")`;
`origHeadersAlg` is the algorithm of `originalTokenHeaders(pkt.OpToken)`
(`none` models malformed original headers inside the GQ `jwt` field). -/
structure PKToken where
  payload : Option (List (String × Json))
  providerAlg : Option SigAlg
  cic : Option CicRec
  gqCicHeader : Option Json
  origHeadersAlg : Option SigAlg

/-- Modelled from the spec: the `pktoken.PKToken.Issuer()` accessor
(the `pktoken` package is not under `src/`); per §4.5 it reads the
`iss` claim of the shared payload, failing on a malformed payload or
a missing or non-string `iss` claim. -/
def PKToken.issuer (pkt : PKToken) : Option String :=
  match pkt.payload with
  | none => none
  | some cs =>
    match alookup cs "iss" with
    | some (.str s) => some s
    | _ => none

/-- Oracle outcomes of the external cryptographic calls made while
verifying one fixed PK Token under one fixed verifier.
`discoverOK`: `DiscoverPublicKey.ByToken(ctx, v.Issuer(), pkt.OpToken)`
succeeds (per spec §4.3 discovery fetches the JWKS of the *verifier's*
configured issuer and matches the token header's `kid`; it never reads
the token's `iss` claim).  `keyIsRSA`: the discovered key is an
`*rsa.PublicKey`.  `rs256VerifyOK`: `jws.Verify(pkt.OpToken,
jws.WithKey(RS256, key))` succeeds.  `gqVerify`:
`gq.GQ256VerifyJWT(rsaKey, pkt.OpToken)`, `none` modelling `(_, err)`
and `some b` modelling `(b, nil)`.  `cicSigOK`: `jws.Verify(pkt.CicToken,
...)` against the CIC's `upk` succeeds. -/
structure VerifyEnv where
  discoverOK : Bool
  keyIsRSA : Bool
  rs256VerifyOK : Bool
  gqVerify : Option Bool
  cicSigOK : Bool

/-- The `for _, audience := range aud` loop of `verifyAudience`:
each element passes through the unchecked assertion
`audience.(string)`, so a non-string element reached before a match
is a runtime panic; falling off the end is the mismatch error. -/
def audScan : List Json → String → GoOut VErr Unit
  | [], _ => .err .audienceMismatch
  | .str a :: rest, clientID =>
    if a = clientID then .ok () else audScan rest clientID
  | _ :: _, _ => .panic

/-- `verifyAudience` from `providerverifier.go`.  A string audience
must equal `clientID`; a list audience is scanned left to right by
`audScan`; any other audience value (absent, null, scalar) is the
"missing audience claim" error. -/
def verifyAudience (pkt : PKToken) (clientID : String) : GoOut VErr Unit :=
  match pkt.payload with
  | none => .err .payloadUnmarshalFailed
  | some claims =>
    match alookup claims "aud" with
    | some (.str aud) =>
      if aud = clientID then .ok () else .err .audienceMismatch
    | some (.arr auds) => audScan auds clientID
    | _ => .err .missingAudience

/-- The audience claim's `aud` value is prefixed by the PK Token
marker `AudPrefixForGQCommitment = "OPENPUBKEY-PKTOKEN:"`. -/
def hasAudMark (s : String) : Bool :=
  "OPENPUBKEY-PKTOKEN:".toList.isPrefixOf s.toList

/-- The commitment-selection block of `verifyCommitment` (its
`commitment, commitmentFound` assignment): GQ-commitment mode reads
the `aud` claim — panicking on the unchecked `aud.(string)` if it is
present but not a string — requires the `OPENPUBKEY-PKTOKEN:` marker,
and takes the commitment from the GQ protected header `cic`;
otherwise the commitment is the configured payload claim. -/
def commitmentLookup (v : DefaultProviderVerifier) (claims : List (String × Json))
    (gqHeader : Option Json) : GoOut VErr Json :=
  if v.options.gqCommitment then
    match alookup claims "aud" with
    | none => .err .gqAudClaimMissing
    | some (.str aud) =>
      if hasAudMark aud then
        match gqHeader with
        | none => .err .gqCommitmentMissing
        | some commitment => .ok commitment
      else .err .gqAudNoPKTokenMark
    | some _ => .panic
  else
    match alookup claims v.commitmentClaim with
    | none => .err .commitmentClaimMissing
    | some commitment => .ok commitment

/-- `verifyCommitment` from `providerverifier.go`: unmarshal the
payload, compute the expected commitment `cic.Hash()`, select the
claimed commitment via `commitmentLookup`, and require
interface-equality with the expected hash string. -/
def verifyCommitment (v : DefaultProviderVerifier) (pkt : PKToken) : GoOut VErr Unit :=
  match pkt.payload with
  | none => .err .payloadUnmarshalFailed
  | some claims =>
    match pkt.cic with
    | none => .err .cicValuesFailed
    | some cic =>
      match cic.hash with
      | none => .err .cicHashFailed
      | some expected =>
        match commitmentLookup v claims pkt.gqCicHeader with
        | .panic => .panic
        | .err e => .err e
        | .ok commitment =>
          if commitment.eqStr expected then .ok () else .err .commitmentMismatch

/-- `verifyGQSig` from `providerverifier.go`: provider algorithm must
be GQ256, the original headers recovered from the GQ `jwt` field must
declare RS256, the payload's issuer must equal the verifier's
configured issuer, and the GQ proof must verify under the discovered
RSA key. -/
def verifyGQSig (v : DefaultProviderVerifier) (env : VerifyEnv) (pkt : PKToken) :
    GoOut VErr Unit :=
  match pkt.providerAlg with
  | none => .err .gqMissingAlgHeader
  | some alg =>
    if alg ≠ SigAlg.GQ256 then .err .gqSigNotGQ
    else
      match pkt.origHeadersAlg with
      | none => .err .gqMalformedHeaders
      | some origAlg =>
        if origAlg ≠ SigAlg.RS256 then .err .gqOrigAlgNotRS256
        else
          match pkt.issuer with
          | none => .err .gqMissingIssuer
          | some pktIssuer =>
            if pktIssuer ≠ v.issuer then .err .gqIssuerMismatch
            else if ¬ env.discoverOK then .err .gqKeyFetchFailed
            else if ¬ env.keyIsRSA then .err .gqJwkNotRSA
            else
              match env.gqVerify with
              | none => .err .gqVerifyError
              | some true => .ok ()
              | some false => .err .gqSigInvalid

/-- `verifyCicSignature` from `providerverifier.go`: re-read the CIC
values and verify the CIC JWS under the CIC's own public key. -/
def verifyCicSignature (env : VerifyEnv) (pkt : PKToken) : GoOut VErr Unit :=
  match pkt.cic with
  | none => .err .cicValuesFailedAtSig
  | some _ => if env.cicSigOK then .ok () else .err .cicSigInvalid

/-- The `switch alg` dispatch of `VerifyProvider`: its `case` arms
are exactly GQ256 and RS256, and there is NO default arm, so any
other algorithm produces no check at all (`.ok ()` here models
falling out of the switch without touching a signature). -/
def opSignatureSwitch (v : DefaultProviderVerifier) (env : VerifyEnv) (pkt : PKToken)
    (alg : SigAlg) : GoOut VErr Unit :=
  match alg with
  | .GQ256 => verifyGQSig v env pkt
  | .RS256 =>
    if ¬ env.discoverOK then .err .opKeyFetchFailed
    else if ¬ env.rs256VerifyOK then .err .opSigInvalid
    else .ok ()
  | .ES256 => .ok ()

/-- The tail of `VerifyProvider` after the audience step: provider
algorithm lookup, the GQ-only gate, the `switch alg` dispatch, then
commitment binding and the CIC signature. -/
def verifyAfterAudience (v : DefaultProviderVerifier) (env : VerifyEnv) (pkt : PKToken) :
    GoOut VErr Unit :=
  match pkt.providerAlg with
  | none => .err .providerAlgMissing
  | some alg =>
    if alg ≠ SigAlg.GQ256 ∧ v.options.gqOnly then .err .nonGQUnsupported
    else
      match opSignatureSwitch v env pkt alg with
      | .panic => .panic
      | .err e => .err e
      | .ok () =>
        match verifyCommitment v pkt with
        | .panic => .panic
        | .err e => .err e
        | .ok () => verifyCicSignature env pkt

/-- `VerifyProvider` from `providerverifier.go`: the GQ-commitment
sanity checks, then `verifyAudience` — always evaluated, its error
ignored when `SkipClientIDCheck` is set but a panic always
propagating — then `verifyAfterAudience`. -/
def VerifyProvider (v : DefaultProviderVerifier) (env : VerifyEnv) (pkt : PKToken) :
    GoOut VErr Unit :=
  if v.options.gqCommitment ∧ ¬ v.options.gqOnly then
    .err .gqCommitmentRequiresGQOnly
  else if v.options.gqCommitment ∧ v.commitmentClaim ≠ "" then
    .err .gqCommitmentRequiresEmptyClaim
  else if v.options.gqCommitment ∧ ¬ v.options.skipClientIDCheck then
    .err .gqCommitmentRequiresSkipAud
  else
    match verifyAudience pkt v.options.clientID with
    | .panic => .panic
    | .err e =>
      if ¬ v.options.skipClientIDCheck then .err e
      else verifyAfterAudience v env pkt
    | .ok () => verifyAfterAudience v env pkt

/-! ## Cosigner core (`cosigner` package, `src/unnamed/part_000`) -/

/-- Error sites of the cosigner operations, one constructor per
distinct error return in the `cosigner` package source. -/
inductive CosErr where
  | msgSigInvalid
  | initMsgParseFailed
  | timestampTooOld
  | timestampInFuture
  | authStateUnmarshalFailed
  | audDeserializeFailed
  | jwsParseFailed
  | invalidAuthcode
  | redeemSigInvalid
deriving DecidableEq

/-- The parsed `msgs.InitMFAAuth` message `{time_signed, redirect_uri,
nonce}`; `timeSigned` is a Unix timestamp in seconds. -/
structure InitMFAAuth where
  timeSigned : Int
  redirectUri : String
  nonce : String

/-- `AuthState` from the cosigner source: the session state stored per
`auth_id`. -/
structure AuthState where
  pkt : PKToken
  issuer : String
  aud : String
  sub : String
  username : String
  displayName : String
  redirectURI : String
  nonce : String
  sigIssued : Bool

/-- `pktoken.CosignerClaims`, the protected header of the `Cos` JWS
as constructed by `IssueSignature`: `iss`, `kid`, `alg`, `auth_id`,
`auth_time`, `iat`, `exp`, `ruri`, `nonce`. -/
structure CosignerClaims where
  iss : String
  kid : String
  alg : String
  authID : String
  authTime : Int
  iat : Int
  exp : Int
  ruri : String
  nonce : String
deriving DecidableEq

/-- `AuthCosigner` from the cosigner source.  `authIdIter` is the
monotonic `AuthIdIter` counter; the HMAC key and the random source
are abstracted into `CosEnv`. -/
structure AuthCosigner where
  issuer : String
  keyID : String
  alg : SigAlg
  authIdIter : Nat
  authStateMap : List (String × AuthState)
  authCodeMap : List (String × String)

/-- Oracles for the cosigner's external primitives.  `hmacHex i t`
abstracts `hex(HMAC-SHA3-256(HmacKey, LE64(i) ‖ LE64(t)))` used by
`CreateAuthID` (the 16-byte `mac.Write` never errors and always
reports 16 bytes written, so its error branches are unreachable).
`freshCode` abstracts the hex encoding of the 32 bytes drawn from
`rand.Read` in `NewAuthcode` (whose error branch never fires on a
healthy random source). -/
structure CosEnv where
  hmacHex : Nat → Int → String
  freshCode : String

/-- The first component of `strings.Split(s, "@")`: the characters
of `s` before its first `'@'`, or all of `s` when none occurs
(`strings.Split` always returns at least one element, so indexing
`[0]` never panics). -/
def firstAtComponent (s : String) : String :=
  (s.toList.takeWhile (fun ch => ch ≠ '@')).asString

/-- In Go, `json.Unmarshal` of a payload claim into a `string` struct
field fails when the claim is present with a non-string, non-null
JSON type. -/
def strFieldBad (claims : List (String × Json)) (k : String) : Bool :=
  match alookup claims k with
  | none => false
  | some (.str _) => false
  | some .null => false
  | some _ => true

/-- The value `json.Unmarshal` leaves in a `string` struct field:
the claim's string when present, the zero value `""` otherwise. -/
def strField (claims : List (String × Json)) (k : String) : String :=
  match alookup claims k with
  | some (.str s) => s
  | _ => ""

/-- The element collection of `NewAuthState`'s `case []any` arm:
each element passes through the unchecked assertion `v.(string)`,
`none` modelling the resulting panic on a non-string element. -/
def asStrings : List Json → Option (List String)
  | [] => some []
  | .str s :: rest => (asStrings rest).map (s :: ·)
  | _ :: _ => none

/-- The `case []any` arm of `NewAuthState`'s audience switch: the
collected strings are joined with `","`. -/
def joinAudList (l : List Json) : Option String :=
  (asStrings l).map (String.intercalate ",")

/-- `NewAuthState` from the cosigner source: unmarshal `iss`, `aud`,
`sub`, `email` from the PK Token payload; a string audience is taken
as is, a list audience is joined with `","` (panicking on a
non-string element), any other audience is an error. -/
def NewAuthState (pkt : PKToken) (ruri nonce : String) : GoOut CosErr AuthState :=
  match pkt.payload with
  | none => .err .authStateUnmarshalFailed
  | some claims =>
    if strFieldBad claims "iss" ∨ strFieldBad claims "sub" ∨ strFieldBad claims "email" then
      .err .authStateUnmarshalFailed
    else
      let audStep : GoOut CosErr String :=
        match alookup claims "aud" with
        | some (.str a) => .ok a
        | some (.arr l) =>
          match joinAudList l with
          | none => .panic
          | some a => .ok a
        | _ => .err .audDeserializeFailed
      match audStep with
      | .panic => .panic
      | .err e => .err e
      | .ok audience =>
        .ok { pkt := pkt
              issuer := strField claims "iss"
              aud := audience
              sub := strField claims "sub"
              username := strField claims "email"
              displayName := firstAtComponent (strField claims "email")
              redirectURI := ruri
              nonce := nonce
              sigIssued := false }

/-- `CreateAuthID` from the cosigner source: bump the monotonic
counter and HMAC it together with the current time. -/
def CreateAuthID (env : CosEnv) (c : AuthCosigner) (now : Int) : String × AuthCosigner :=
  let iter := c.authIdIter + 1
  (env.hmacHex iter now, { c with authIdIter := iter })

/-- `InitAuth` from the cosigner source.  `verifiedMsg` is the
composite outcome of `pkt.VerifySignedMessage(sig)` followed by
`json.Unmarshal` into `InitMFAAuth`: `none` when signature
verification fails, `some none` when unmarshalling fails, and
`some (some m)` on success.  The timestamp window is Go's
`time.Since(...).Minutes() > 2` and `time.Until(...).Minutes() > 2`,
i.e. strictly more than 120 seconds in the past or the future. -/
def InitAuth (env : CosEnv) (c : AuthCosigner) (pkt : PKToken)
    (verifiedMsg : Option (Option InitMFAAuth)) (now : Int) :
    GoOut CosErr String × AuthCosigner :=
  match verifiedMsg with
  | none => (.err .msgSigInvalid, c)
  | some none => (.err .initMsgParseFailed, c)
  | some (some m) =>
    if now - m.timeSigned > 120 then (.err .timestampTooOld, c)
    else if m.timeSigned - now > 120 then (.err .timestampInFuture, c)
    else
      match NewAuthState pkt m.redirectUri m.nonce with
      | .panic => (.panic, c)
      | .err e => (.err e, c)
      | .ok authState =>
        let (authID, c1) := CreateAuthID env c now
        (.ok authID, { c1 with authStateMap := (authID, authState) :: c1.authStateMap })

/-- `NewAuthcode` from the cosigner source: draw a fresh 32-byte hex
code and store `authCode ↦ authID`, with no check that `authID`
exists in `AuthStateMap`. -/
def NewAuthcode (env : CosEnv) (c : AuthCosigner) (authID : String) :
    GoOut CosErr String × AuthCosigner :=
  let authCode := env.freshCode
  (.ok authCode, { c with authCodeMap := (authCode, authID) :: c.authCodeMap })

/-- `IssueSignature` from the cosigner source: look up the auth state
(a missing `authID` leaves `authState` nil, so reading
`authState.RedirectURI` is a nil-pointer panic) and build the
`CosignerClaims` protected header; `c.Cosign(pkt, protected)` — the
embedded `Cosigner.Cosign` is not under `src/`; modelled from the
spec (§4.7): it attaches a `Cos` JWS carrying the protected claims,
here modelled as returning the claims record itself.  The cosigner
state is returned unchanged: this function writes nothing to
`AuthStateMap` (in particular it never sets `SigIssued`). -/
def IssueSignature (c : AuthCosigner) (_pkt : PKToken) (authID : String) (now : Int) :
    GoOut CosErr CosignerClaims × AuthCosigner :=
  match alookup c.authStateMap authID with
  | none => (.panic, c)
  | some authState =>
    (.ok { iss := c.issuer
           kid := c.keyID
           alg := c.alg.name
           authID := authID
           authTime := now
           iat := now
           exp := now + 3600
           ruri := authState.redirectURI
           nonce := authState.nonce }, c)

/-- The inputs the `RedeemAuthcode` body extracts from its `sig`
argument: `parseOk` is whether `jws.Parse(sig)` succeeds, `payload`
is `msg.Payload()`, and `sigOk` abstracts the outcome of
`authState.Pkt.VerifySignedMessage(sig)` under the stored PK Token's
user public key. -/
structure CosSig where
  parseOk : Bool
  payload : String
  sigOk : Bool

/-- `RedeemAuthcode` from the cosigner source: parse the JWS, look
the payload up in `AuthCodeMap`, fetch the auth state — a missing
state is a nil pointer whose `.Pkt` access panics — re-verify the
signature, and call `IssueSignature`.  NOTE, faithful to the source:
the authcode is NOT deleted from `AuthCodeMap` on redemption. -/
def RedeemAuthcode (c : AuthCosigner) (sig : CosSig) (now : Int) :
    GoOut CosErr CosignerClaims × AuthCosigner :=
  if ¬ sig.parseOk then (.err .jwsParseFailed, c)
  else
    match alookup c.authCodeMap sig.payload with
    | none => (.err .invalidAuthcode, c)
    | some authID =>
      match alookup c.authStateMap authID with
      | none => (.panic, c)
      | some authState =>
        if ¬ sig.sigOk then (.err .redeemSigInvalid, c)
        else IssueSignature c authState.pkt authID now

/-! ## Derived predicates and spec-side definitions -/

/-- The audience step of `VerifyProvider` lets execution continue:
either `verifyAudience` succeeded, or it returned an error that is
ignored because `SkipClientIDCheck` is set. -/
def audPasses (v : DefaultProviderVerifier) (pkt : PKToken) : Prop :=
  verifyAudience pkt v.options.clientID = .ok () ∨
  (v.options.skipClientIDCheck = true ∧
    ∃ e, verifyAudience pkt v.options.clientID = .err e)

/-- Every element of the list has dynamic type `string`. -/
def allStringsIn : List Json → Bool
  | [] => true
  | .str _ :: rest => allStringsIn rest
  | _ :: _ => false

/-- The string `cid` occurs among the string elements of the list. -/
def containsStr : List Json → String → Bool
  | [], _ => false
  | .str a :: rest, cid => a = cid || containsStr rest cid
  | _ :: rest, cid => containsStr rest cid

/-- The audience acceptance rule exactly as the spec words it, for
refinement comparison with `verifyAudience`: "Verification accepts a
list audience iff `client_id` appears in it; accepts a string
audience iff it equals `client_id`"; any other aud value (absent or
of another JSON type) is not accepted. -/
def audSpecAccepts : Option Json → String → Bool
  | some (.str s), cid => s = cid
  | some (.arr l), cid => allStringsIn l && containsStr l cid
  | _, _ => false

/-! ## Concrete scenarios -/

/-- A verifier in the default configuration of the test suite:
RS256 expected, commitment claim `nonce`, client-ID check active. -/
def vDef : DefaultProviderVerifier :=
  { issuer := "https://accounts.example.com"
    commitmentClaim := "nonce"
    options := { clientID := "client1", skipClientIDCheck := false
                 skipExpirationCheck := false, gqOnly := false, gqCommitment := false } }

/-- An environment in which no signature check can possibly succeed:
key discovery fails, RS256 verification fails, GQ verification
reports an invalid proof.  Only the CIC signature verifies. -/
def envNoSig : VerifyEnv :=
  { discoverOK := false, keyIsRSA := false, rs256VerifyOK := false
    gqVerify := some false, cicSigOK := true }

/-- A PK Token whose provider protected header declares ES256 and
whose `nonce` claim matches the CIC hash. -/
def pktES : PKToken :=
  { payload := some [("iss", .str "https://accounts.example.com"),
                     ("aud", .str "client1"), ("nonce", .str "COMMITHASH1")]
    providerAlg := some .ES256
    cic := some ⟨some "COMMITHASH1"⟩
    gqCicHeader := none
    origHeadersAlg := none }

/-- A verifier configured for Google's issuer. -/
def vGoogle : DefaultProviderVerifier :=
  { issuer := "https://accounts.google.com"
    commitmentClaim := "nonce"
    options := { clientID := "client1", skipClientIDCheck := false
                 skipExpirationCheck := false, gqOnly := false, gqCommitment := false } }

/-- An environment in which discovery at the verifier's issuer
succeeds and every signature verifies (the token is genuinely signed
under a key served by the verifier's issuer). -/
def envAllOK : VerifyEnv :=
  { discoverOK := true, keyIsRSA := true, rs256VerifyOK := true
    gqVerify := some true, cicSigOK := true }

/-- An environment in which key discovery succeeds but the RS256 and
GQ provider-signature checks themselves fail. -/
def envBadSig : VerifyEnv :=
  { discoverOK := true, keyIsRSA := true, rs256VerifyOK := false
    gqVerify := some false, cicSigOK := true }

/-- An RS256 PK Token whose `iss` claim is an attacker's issuer,
while its header `kid` resolves against the verifier's configured
issuer; its `nonce` claim matches the CIC hash. -/
def pktEvilIss : PKToken :=
  { payload := some [("iss", .str "https://evil.com/"),
                     ("aud", .str "client1"), ("nonce", .str "COMMITHASH2")]
    providerAlg := some .RS256
    cic := some ⟨some "COMMITHASH2"⟩
    gqCicHeader := none
    origHeadersAlg := none }

/-- A PK Token held by a cosigner auth session. -/
def pktCos : PKToken :=
  { payload := some [("iss", .str "https://op.example.com"),
                     ("aud", .str "cosid"), ("sub", .str "user1"),
                     ("email", .str "alice@example.com")]
    providerAlg := some .RS256
    cic := some ⟨some "COSHASH"⟩
    gqCicHeader := none
    origHeadersAlg := none }

/-- The auth state `NewAuthState` derives from `pktCos`. -/
def stCos : AuthState :=
  { pkt := pktCos, issuer := "https://op.example.com", aud := "cosid"
    sub := "user1", username := "alice@example.com", displayName := "alice"
    redirectURI := "https://mfa.example.com/cb", nonce := "n1", sigIssued := false }

/-- A cosigner with one live auth session `aid1` and one authcode
`code1` minted for it. -/
def cosW : AuthCosigner :=
  { issuer := "https://cos.example.com", keyID := "kid1", alg := .ES256
    authIdIter := 1
    authStateMap := [("aid1", stCos)]
    authCodeMap := [("code1", "aid1")] }

/-- A JWS presenting authcode `code1`, parsing and verifying
correctly under the session's PK Token key. -/
def sigW : CosSig := { parseOk := true, payload := "code1", sigOk := true }

/-- Cosigner oracle environment with a concrete auth-id derivation
and a concrete fresh authcode. -/
def envCos : CosEnv :=
  { hmacHex := fun i t => "auth-" ++ toString i ++ "-" ++ toString t
    freshCode := "codeX" }

/-- A cosigner with no auth sessions and no authcodes. -/
def cosEmpty : AuthCosigner :=
  { issuer := "https://cos.example.com", keyID := "kid1", alg := .ES256
    authIdIter := 0, authStateMap := [], authCodeMap := [] }

/-- A signed `InitMFAAuth` message carrying timestamp 1000. -/
def mW : InitMFAAuth :=
  { timeSigned := 1000, redirectUri := "https://mfa.example.com/cb", nonce := "n1" }

/-- Payload claims whose `aud` is a heterogeneous JSON list: the
matching string sits before a number element. -/
def claimsHet : List (String × Json) :=
  [("aud", .arr [.str "cid", .num 42])]

/-- A PK Token carrying `claimsHet`. -/
def pktHet : PKToken :=
  { payload := some claimsHet, providerAlg := some .RS256
    cic := none, gqCicHeader := none, origHeadersAlg := none }

/-- Payload claims whose `aud` is a list of two strings. -/
def claimsTwo : List (String × Json) :=
  [("aud", .arr [.str "other", .str "cid2"])]

/-- A PK Token carrying `claimsTwo`. -/
def pktTwo : PKToken :=
  { payload := some claimsTwo, providerAlg := some .RS256
    cic := none, gqCicHeader := none, origHeadersAlg := none }

/-- A verifier in GQ-commitment mode (which requires `GQOnly`, an
empty commitment claim and `SkipClientIDCheck`). -/
def vGQ : DefaultProviderVerifier :=
  { issuer := "https://op.gq.example"
    commitmentClaim := ""
    options := { clientID := "", skipClientIDCheck := true
                 skipExpirationCheck := false, gqOnly := true, gqCommitment := true } }

/-- An environment in which the GQ proof and the CIC signature
verify. -/
def envGQ : VerifyEnv :=
  { discoverOK := true, keyIsRSA := true, rs256VerifyOK := false
    gqVerify := some true, cicSigOK := true }

/-- A GQ-signed PK Token with the `OPENPUBKEY-PKTOKEN:` audience
marker whose GQ protected header `cic` matches the CIC hash. -/
def pktGQ : PKToken :=
  { payload := some [("iss", .str "https://op.gq.example"),
                     ("aud", .str "OPENPUBKEY-PKTOKEN:xyz")]
    providerAlg := some .GQ256
    cic := some ⟨some "GQHASH"⟩
    gqCicHeader := some (.str "GQHASH")
    origHeadersAlg := some .RS256 }

/-! ## Helper lemmas -/

/-- Interface-equality against a string holds exactly for the equal
string value. -/
theorem Json.eqStr_iff {j : Json} {s : String} : j.eqStr s = true ↔ j = .str s := by
  cases j <;> simp [Json.eqStr]

/-- `commitmentLookup` panics exactly in GQ-commitment mode on a
present but non-string `aud` claim. -/
theorem commitmentLookup_panic_iff (v : DefaultProviderVerifier)
    (claims : List (String × Json)) (gqHeader : Option Json) :
    commitmentLookup v claims gqHeader = .panic ↔
      (v.options.gqCommitment = true ∧
       ∃ j, alookup claims "aud" = some j ∧ j.isString = false) := by
  unfold commitmentLookup
  by_cases hq : v.options.gqCommitment = true
  · simp only [hq, if_true]
    cases ha : alookup claims "aud" with
    | none => simp
    | some j =>
      cases j with
      | str a =>
        by_cases hm : hasAudMark a
        · cases gqHeader <;> simp [hm, Json.isString]
        · simp [hm, Json.isString]
      | num n => simp [Json.isString]
      | bool b => simp [Json.isString]
      | null => simp [Json.isString]
      | arr l => simp [Json.isString]
  · have hf : v.options.gqCommitment = false := by
      cases h : v.options.gqCommitment
      · rfl
      · exact absurd h hq
    simp only [hf, Bool.false_eq_true, if_false, false_and, iff_false]
    cases hc : alookup claims v.commitmentClaim <;> simp [hc]

/-- In GQ-commitment mode a successful `commitmentLookup` comes from
a string `aud` claim with the PK Token marker and a present GQ `cic`
header, whose value is the returned commitment. -/
theorem commitmentLookup_ok_gq (v : DefaultProviderVerifier)
    (claims : List (String × Json)) (gqHeader : Option Json) (cm : Json)
    (hq : v.options.gqCommitment = true)
    (h : commitmentLookup v claims gqHeader = .ok cm) :
    ∃ a, alookup claims "aud" = some (.str a) ∧ hasAudMark a = true ∧
      gqHeader = some cm := by
  unfold commitmentLookup at h
  simp only [hq, if_true] at h
  cases ha : alookup claims "aud" with
  | none => simp [ha] at h
  | some j =>
    simp only [ha] at h
    cases j with
    | str a =>
      by_cases hm : hasAudMark a
      · cases hg : gqHeader with
        | none => simp [hm, hg] at h
        | some cmn =>
          simp only [hm, if_true, hg] at h
          cases h
          exact ⟨a, rfl, by simp [hm], rfl⟩
      · simp [hm] at h
    | num n => simp at h
    | bool b => simp at h
    | null => simp at h
    | arr l => simp at h

/-- `verifyCommitment` panics exactly in GQ-commitment mode, with a
well-formed payload and CIC hash, on a present but non-string `aud`
claim (the unchecked `aud.(string)` assertion). -/
theorem verifyCommitment_panic_iff (v : DefaultProviderVerifier) (pkt : PKToken) :
    verifyCommitment v pkt = .panic ↔
      (v.options.gqCommitment = true ∧
       ∃ cs cic h j, pkt.payload = some cs ∧ pkt.cic = some cic ∧
         cic.hash = some h ∧ alookup cs "aud" = some j ∧ j.isString = false) := by
  constructor
  · intro hp
    unfold verifyCommitment at hp
    cases hpl : pkt.payload with
    | none => simp only [hpl] at hp; simp at hp
    | some cs =>
      simp only [hpl] at hp
      cases hc : pkt.cic with
      | none => simp only [hc] at hp; simp at hp
      | some cic =>
        simp only [hc] at hp
        cases hh : cic.hash with
        | none => simp only [hh] at hp; simp at hp
        | some hsh =>
          simp only [hh] at hp
          cases hcl : commitmentLookup v cs pkt.gqCicHeader with
          | panic =>
            obtain ⟨hq, j, ha, hjs⟩ :=
              (commitmentLookup_panic_iff v cs pkt.gqCicHeader).mp hcl
            exact ⟨hq, cs, cic, hsh, j, rfl, rfl, hh, ha, hjs⟩
          | err e => simp only [hcl] at hp; simp at hp
          | ok cm =>
            simp only [hcl] at hp
            by_cases he : cm.eqStr hsh = true <;> simp [he] at hp
  · rintro ⟨hq, cs, cic, hsh, j, hpl, hc, hh, ha, hjs⟩
    unfold verifyCommitment
    simp only [hpl, hc, hh]
    have hcl : commitmentLookup v cs pkt.gqCicHeader = .panic :=
      (commitmentLookup_panic_iff v cs pkt.gqCicHeader).mpr ⟨hq, j, ha, hjs⟩
    simp [hcl]

/-- In GQ-commitment mode a successful `verifyCommitment` certifies:
well-formed payload, a string `aud` claim carrying the PK Token
marker, a computed CIC hash, and a GQ `cic` header equal to it. -/
theorem commitment_ok_gq_conditions (v : DefaultProviderVerifier) (pkt : PKToken)
    (hq : v.options.gqCommitment = true)
    (h : verifyCommitment v pkt = .ok ()) :
    ∃ cs a cic hsh, pkt.payload = some cs ∧ alookup cs "aud" = some (.str a) ∧
      hasAudMark a = true ∧ pkt.cic = some cic ∧ cic.hash = some hsh ∧
      pkt.gqCicHeader = some (.str hsh) := by
  unfold verifyCommitment at h
  cases hpl : pkt.payload with
  | none => simp only [hpl] at h; simp at h
  | some cs =>
    simp only [hpl] at h
    cases hc : pkt.cic with
    | none => simp only [hc] at h; simp at h
    | some cic =>
      simp only [hc] at h
      cases hh : cic.hash with
      | none => simp only [hh] at h; simp at h
      | some hsh =>
        simp only [hh] at h
        cases hcl : commitmentLookup v cs pkt.gqCicHeader with
        | panic => simp only [hcl] at h; simp at h
        | err e => simp only [hcl] at h; simp at h
        | ok cm =>
          simp only [hcl] at h
          by_cases he : cm.eqStr hsh = true
          · obtain ⟨a, ha, hm, hg⟩ := commitmentLookup_ok_gq v cs pkt.gqCicHeader cm hq hcl
            exact ⟨cs, a, cic, hsh, rfl, ha, hm, rfl, hh, by rw [hg, Json.eqStr_iff.mp he]⟩
          · simp [he] at h

/-- `verifyGQSig` never panics: every failure is an error return. -/
theorem verifyGQSig_ne_panic (v : DefaultProviderVerifier) (env : VerifyEnv)
    (pkt : PKToken) : verifyGQSig v env pkt ≠ .panic := by
  unfold verifyGQSig
  cases pkt.providerAlg with
  | none => simp
  | some alg =>
    by_cases h1 : alg ≠ SigAlg.GQ256
    · simp [h1]
    · simp only [h1, if_false]
      cases pkt.origHeadersAlg with
      | none => simp
      | some origAlg =>
        by_cases h2 : origAlg ≠ SigAlg.RS256
        · simp [h2]
        · simp only [h2, if_false]
          cases pkt.issuer with
          | none => simp
          | some iss =>
            by_cases h3 : iss ≠ v.issuer
            · simp [h3]
            · simp only [h3, if_false]
              by_cases h4 : env.discoverOK <;> by_cases h5 : env.keyIsRSA <;>
                cases hg : env.gqVerify <;> simp [h4, h5, hg] <;>
                rename_i b <;> cases b <;> simp

/-- `verifyCicSignature` never panics. -/
theorem verifyCicSignature_ne_panic (env : VerifyEnv) (pkt : PKToken) :
    verifyCicSignature env pkt ≠ .panic := by
  unfold verifyCicSignature
  cases pkt.cic with
  | none => simp
  | some cic => by_cases h : env.cicSigOK <;> simp [h]

/-- The `switch alg` never panics: it verifies, errors, or (for an
unlisted algorithm) silently does nothing. -/
theorem opSignatureSwitch_ne_panic (v : DefaultProviderVerifier) (env : VerifyEnv)
    (pkt : PKToken) (alg : SigAlg) : opSignatureSwitch v env pkt alg ≠ .panic := by
  cases alg with
  | GQ256 => exact verifyGQSig_ne_panic v env pkt
  | RS256 =>
    unfold opSignatureSwitch
    by_cases h1 : env.discoverOK <;> by_cases h2 : env.rs256VerifyOK <;> simp [h1, h2]
  | ES256 => simp [opSignatureSwitch]

/-- A panic of `verifyAudience` comes from a list-typed `aud` claim. -/
theorem verifyAudience_panic_arr (pkt : PKToken) (cid : String)
    (h : verifyAudience pkt cid = .panic) :
    ∃ cs l, pkt.payload = some cs ∧ alookup cs "aud" = some (.arr l) := by
  unfold verifyAudience at h
  cases hpl : pkt.payload with
  | none => simp only [hpl] at h; simp at h
  | some cs =>
    simp only [hpl] at h
    cases ha : alookup cs "aud" with
    | none => simp only [ha] at h; simp at h
    | some j =>
      simp only [ha] at h
      cases j with
      | str a => by_cases he : a = cid <;> simp [he] at h
      | arr l => exact ⟨cs, l, rfl, ha⟩
      | num n => simp at h
      | bool b => simp at h
      | null => simp at h

/-- A successful `verifyAfterAudience` passed commitment binding. -/
theorem afterAudience_ok_commitment (v : DefaultProviderVerifier) (env : VerifyEnv)
    (pkt : PKToken) (h : verifyAfterAudience v env pkt = .ok ()) :
    verifyCommitment v pkt = .ok () := by
  unfold verifyAfterAudience at h
  cases hpa : pkt.providerAlg with
  | none => simp only [hpa] at h; simp at h
  | some alg =>
    simp only [hpa] at h
    by_cases hgate : (alg ≠ SigAlg.GQ256 ∧ v.options.gqOnly = true)
    · simp [hgate] at h
    · rw [if_neg (by simpa using hgate)] at h
      cases hs : opSignatureSwitch v env pkt alg with
      | panic => simp only [hs] at h; simp at h
      | err e => simp only [hs] at h; simp at h
      | ok u =>
        cases u
        simp only [hs] at h
        cases hc : verifyCommitment v pkt with
        | panic => simp only [hc] at h; simp at h
        | err e => simp only [hc] at h; simp at h
        | ok u => cases u; rfl

/-- A successful `VerifyProvider` ran `verifyAfterAudience` to
success. -/
theorem verifyProvider_ok_afterAudience (v : DefaultProviderVerifier) (env : VerifyEnv)
    (pkt : PKToken) (h : VerifyProvider v env pkt = .ok ()) :
    verifyAfterAudience v env pkt = .ok () := by
  unfold VerifyProvider at h
  by_cases h1 : (v.options.gqCommitment = true ∧ ¬ v.options.gqOnly = true)
  · simp [h1] at h
  · rw [if_neg (by simpa using h1)] at h
    by_cases h2 : (v.options.gqCommitment = true ∧ v.commitmentClaim ≠ "")
    · simp [h2] at h
    · rw [if_neg (by simpa using h2)] at h
      by_cases h3 : (v.options.gqCommitment = true ∧ ¬ v.options.skipClientIDCheck = true)
      · simp [h3] at h
      · rw [if_neg (by simpa using h3)] at h
        cases ha : verifyAudience pkt v.options.clientID with
        | panic => simp only [ha] at h; simp at h
        | err e =>
          simp only [ha] at h
          by_cases hs : v.options.skipClientIDCheck = true
          · simpa [hs] using h
          · simp [hs] at h
        | ok u => cases u; simpa only [ha] using h

/-- A panic of `VerifyProvider` always traces back to a present but
non-string `aud` claim (either in `verifyAudience`'s element scan or
in `verifyCommitment`'s unchecked `aud.(string)` assertion). -/
theorem verifyProvider_panic_aud (v : DefaultProviderVerifier) (env : VerifyEnv)
    (pkt : PKToken) (h : VerifyProvider v env pkt = .panic) :
    ∃ cs j, pkt.payload = some cs ∧ alookup cs "aud" = some j ∧
      j.isString = false := by
  have hafter : ∀ ha : verifyAfterAudience v env pkt = .panic,
      ∃ cs j, pkt.payload = some cs ∧ alookup cs "aud" = some j ∧
        j.isString = false := by
    intro ha
    unfold verifyAfterAudience at ha
    cases hpa : pkt.providerAlg with
    | none => simp only [hpa] at ha; simp at ha
    | some alg =>
      simp only [hpa] at ha
      by_cases hgate : (alg ≠ SigAlg.GQ256 ∧ v.options.gqOnly = true)
      · simp [hgate] at ha
      · rw [if_neg (by simpa using hgate)] at ha
        cases hs : opSignatureSwitch v env pkt alg with
        | panic => exact absurd hs (opSignatureSwitch_ne_panic v env pkt alg)
        | err e => simp only [hs] at ha; simp at ha
        | ok u =>
          cases u
          simp only [hs] at ha
          cases hc : verifyCommitment v pkt with
          | panic =>
            obtain ⟨-, cs, cic, hsh, j, hpl, -, -, haud, hjs⟩ :=
              (verifyCommitment_panic_iff v pkt).mp hc
            exact ⟨cs, j, hpl, haud, hjs⟩
          | err e => simp only [hc] at ha; simp at ha
          | ok u =>
            cases u
            simp only [hc] at ha
            exact absurd ha (verifyCicSignature_ne_panic env pkt)
  unfold VerifyProvider at h
  by_cases h1 : (v.options.gqCommitment = true ∧ ¬ v.options.gqOnly = true)
  · simp [h1] at h
  · rw [if_neg (by simpa using h1)] at h
    by_cases h2 : (v.options.gqCommitment = true ∧ v.commitmentClaim ≠ "")
    · simp [h2] at h
    · rw [if_neg (by simpa using h2)] at h
      by_cases h3 : (v.options.gqCommitment = true ∧ ¬ v.options.skipClientIDCheck = true)
      · simp [h3] at h
      · rw [if_neg (by simpa using h3)] at h
        cases ha : verifyAudience pkt v.options.clientID with
        | panic =>
          obtain ⟨cs, l, hpl, haud⟩ := verifyAudience_panic_arr pkt _ ha
          exact ⟨cs, .arr l, hpl, haud, rfl⟩
        | err e =>
          simp only [ha] at h
          by_cases hs : v.options.skipClientIDCheck = true
          · exact hafter (by simpa [hs] using h)
          · simp [hs] at h
        | ok u => cases u; exact hafter (by simpa only [ha] using h)

/-- When GQ-commitment mode is off and the audience step passes (or
its error is skipped), `VerifyProvider` is exactly its tail. -/
theorem verifyProvider_eq_after (v : DefaultProviderVerifier) (env : VerifyEnv)
    (pkt : PKToken) (hgc : v.options.gqCommitment = false)
    (haud : audPasses v pkt) :
    VerifyProvider v env pkt = verifyAfterAudience v env pkt := by
  unfold VerifyProvider
  simp only [hgc, Bool.false_eq_true, false_and, if_false]
  rcases haud with hok | ⟨hskip, e, herr⟩
  · rw [hok]
  · rw [herr]
    simp [hskip]

/-- The element scan of `verifyAudience` succeeds exactly when the
client ID occurs as a string element with only strings before it. -/
theorem audScan_ok_iff (l : List Json) (cid : String) :
    audScan l cid = .ok () ↔
      ∃ pre post, l = pre ++ Json.str cid :: post ∧
        ∀ x ∈ pre, x.isString = true := by
  induction l with
  | nil =>
    simp only [audScan]
    constructor
    · intro h; simp at h
    · rintro ⟨pre, post, hsplit, -⟩
      exact absurd hsplit (by simp)
  | cons hd tl ih =>
    cases hd with
    | str a =>
      by_cases he : a = cid
      · subst he
        simp only [audScan, if_pos rfl]
        constructor
        · intro _; exact ⟨[], tl, rfl, by simp⟩
        · intro _; rfl
      · simp only [audScan, if_neg he, ih]
        constructor
        · rintro ⟨pre, post, hsplit, hstr⟩
          exact ⟨Json.str a :: pre, post, by rw [hsplit]; rfl,
            by intro x hx
               rcases List.mem_cons.mp hx with hx | hx
               · rw [hx]; rfl
               · exact hstr x hx⟩
        · rintro ⟨pre, post, hsplit, hstr⟩
          cases pre with
          | nil =>
            exfalso
            apply he
            have := hsplit
            simp only [List.nil_append] at this
            exact (Json.str.injEq a cid).mp (List.cons_eq_cons.mp this).1
          | cons p pre' =>
            have hc := List.cons_eq_cons.mp (by simpa using hsplit)
            exact ⟨pre', post, hc.2, fun x hx => hstr x (List.mem_cons_of_mem p hx)⟩
    | num n =>
      simp only [audScan]
      constructor
      · intro h; simp at h
      · rintro ⟨pre, post, hsplit, hstr⟩
        cases pre with
        | nil =>
          simp only [List.nil_append] at hsplit
          injections
        | cons p pre' =>
          have hp : p = Json.num n := ((List.cons_eq_cons.mp (by simpa using hsplit)).1).symm
          have := hstr p (List.mem_cons_self p pre')
          rw [hp] at this
          simp [Json.isString] at this
    | bool b =>
      simp only [audScan]
      constructor
      · intro h; simp at h
      · rintro ⟨pre, post, hsplit, hstr⟩
        cases pre with
        | nil =>
          simp only [List.nil_append] at hsplit
          injections
        | cons p pre' =>
          have hp : p = Json.bool b := ((List.cons_eq_cons.mp (by simpa using hsplit)).1).symm
          have := hstr p (List.mem_cons_self p pre')
          rw [hp] at this
          simp [Json.isString] at this
    | null =>
      simp only [audScan]
      constructor
      · intro h; simp at h
      · rintro ⟨pre, post, hsplit, hstr⟩
        cases pre with
        | nil =>
          simp only [List.nil_append] at hsplit
          injections
        | cons p pre' =>
          have hp : p = Json.null := ((List.cons_eq_cons.mp (by simpa using hsplit)).1).symm
          have := hstr p (List.mem_cons_self p pre')
          rw [hp] at this
          simp [Json.isString] at this
    | arr l' =>
      simp only [audScan]
      constructor
      · intro h; simp at h
      · rintro ⟨pre, post, hsplit, hstr⟩
        cases pre with
        | nil =>
          simp only [List.nil_append] at hsplit
          injections
        | cons p pre' =>
          have hp : p = Json.arr l' := ((List.cons_eq_cons.mp (by simpa using hsplit)).1).symm
          have := hstr p (List.mem_cons_self p pre')
          rw [hp] at this
          simp [Json.isString] at this

/-- The element scan of `verifyAudience` panics exactly when a
non-string element appears with only strings before it, none of
which is the client ID (the scan hits `audience.(string)` before any
match). -/
theorem audScan_panic_iff (l : List Json) (cid : String) :
    audScan l cid = .panic ↔
      ∃ pre x post, l = pre ++ x :: post ∧ (∀ y ∈ pre, y.isString = true) ∧
        x.isString = false ∧ Json.str cid ∉ pre := by
  induction l with
  | nil =>
    simp only [audScan]
    constructor
    · intro h; simp at h
    · rintro ⟨pre, x, post, hsplit, -, -, -⟩
      exact absurd hsplit (by simp)
  | cons hd tl ih =>
    cases hd with
    | str a =>
      by_cases he : a = cid
      · subst he
        have hok : audScan (Json.str a :: tl) a = .ok () := by
          simp [audScan]
        rw [hok]
        constructor
        · intro h; simp at h
        · rintro ⟨pre, x, post, hsplit, hstr, hxs, hnm⟩
          exfalso
          cases pre with
          | nil =>
            simp only [List.nil_append] at hsplit
            have h1 := (List.cons_eq_cons.mp hsplit).1
            rw [← h1] at hxs
            simp [Json.isString] at hxs
          | cons p pre' =>
            have hc := List.cons_eq_cons.mp (by simpa using hsplit)
            apply hnm
            rw [hc.1]
            exact List.mem_cons_self p pre'
      · simp only [audScan, if_neg he, ih]
        constructor
        · rintro ⟨pre, x, post, hsplit, hstr, hxs, hnm⟩
          refine ⟨Json.str a :: pre, x, post, by rw [hsplit]; rfl, ?_, hxs, ?_⟩
          · intro y hy
            rcases List.mem_cons.mp hy with hy | hy
            · rw [hy]; rfl
            · exact hstr y hy
          · intro hmem
            rcases List.mem_cons.mp hmem with hmem | hmem
            · exact he ((Json.str.injEq a cid).mp hmem.symm)
            · exact hnm hmem
        · rintro ⟨pre, x, post, hsplit, hstr, hxs, hnm⟩
          cases pre with
          | nil =>
            simp only [List.nil_append] at hsplit
            have h1 := (List.cons_eq_cons.mp hsplit).1
            rw [← h1] at hxs
            simp [Json.isString] at hxs
          | cons p pre' =>
            have hc := List.cons_eq_cons.mp (by simpa using hsplit)
            exact ⟨pre', x, post, hc.2,
              fun y hy => hstr y (List.mem_cons_of_mem p hy), hxs,
              fun hmem => hnm (List.mem_cons_of_mem p hmem)⟩
    | num n =>
      simp only [audScan]
      constructor
      · intro _; exact ⟨[], .num n, tl, rfl, by simp, rfl, by simp⟩
      · intro _; trivial
    | bool b =>
      simp only [audScan]
      constructor
      · intro _; exact ⟨[], .bool b, tl, rfl, by simp, rfl, by simp⟩
      · intro _; trivial
    | null =>
      simp only [audScan]
      constructor
      · intro _; exact ⟨[], .null, tl, rfl, by simp, rfl, by simp⟩
      · intro _; trivial
    | arr l' =>
      simp only [audScan]
      constructor
      · intro _; exact ⟨[], .arr l', tl, rfl, by simp, rfl, by simp⟩
      · intro _; trivial

/-! ## Claim theorems -/

/-- C1: for an ES256-signed PK Token (an algorithm other than RS256
and GQ256) with `GQOnly` unset, `VerifyProvider` does NOT reject:
the `switch alg` has no default arm, so it falls through to
commitment binding and CIC verification and returns success, in an
environment where every provider-signature oracle fails — the
provider signature is never verified. -/
theorem c1_es256_falls_through_unverified :
    pktES.providerAlg = some SigAlg.ES256 ∧
    VerifyProvider vDef envNoSig pktES = .ok () :=
  ⟨rfl, rfl⟩

/-- C2: the RS256 path of `VerifyProvider` never compares
`pkt.issuer()` with the verifier's configured issuer (only
`verifyGQSig` does), so a token whose `iss` claim differs from the
verifier's issuer verifies successfully. -/
theorem c2_rs256_ignores_issuer_claim :
    pktEvilIss.issuer = some "https://evil.com/" ∧
    vGoogle.issuer = "https://accounts.google.com" ∧
    pktEvilIss.issuer ≠ some vGoogle.issuer ∧
    VerifyProvider vGoogle envAllOK pktEvilIss = .ok () :=
  ⟨rfl, rfl, by decide, rfl⟩

/-- C3: `RedeemAuthcode` never deletes the redeemed authcode from
`AuthCodeMap` — the cosigner state after a successful redemption is
unchanged, the authcode is still present, and a second redemption of
the very same authcode succeeds and issues a second cosignature. -/
theorem c3_authcode_replay_succeeds :
    (RedeemAuthcode cosW sigW 1000).1 =
      .ok { iss := "https://cos.example.com", kid := "kid1", alg := "ES256"
            authID := "aid1", authTime := 1000, iat := 1000, exp := 4600
            ruri := "https://mfa.example.com/cb", nonce := "n1" } ∧
    (RedeemAuthcode cosW sigW 1000).2 = cosW ∧
    alookup (RedeemAuthcode cosW sigW 1000).2.authCodeMap "code1" = some "aid1" ∧
    (RedeemAuthcode (RedeemAuthcode cosW sigW 1000).2 sigW 2000).1 =
      .ok { iss := "https://cos.example.com", kid := "kid1", alg := "ES256"
            authID := "aid1", authTime := 2000, iat := 2000, exp := 5600
            ruri := "https://mfa.example.com/cb", nonce := "n1" } :=
  ⟨rfl, rfl, rfl, rfl⟩

/-- C8: a successful `IssueSignature` call returns the `Cos`
protected header with the nine cosigner claims, but the stored
`AuthState` is untouched: the function never writes `SigIssued`, so
it is still `false` after the call returns. -/
theorem c8_claims_issued_but_sigissued_unset :
    (IssueSignature cosW pktCos "aid1" 2000).1 =
      .ok { iss := "https://cos.example.com", kid := "kid1", alg := "ES256"
            authID := "aid1", authTime := 2000, iat := 2000, exp := 5600
            ruri := "https://mfa.example.com/cb", nonce := "n1" } ∧
    (IssueSignature cosW pktCos "aid1" 2000).2 = cosW ∧
    (alookup (IssueSignature cosW pktCos "aid1" 2000).2.authStateMap "aid1").map
      AuthState.sigIssued = some false :=
  ⟨rfl, rfl, rfl⟩

/-- C10: `NewAuthcode` stores `authcode ↦ authID` for any supplied
`authID`, never consulting `AuthStateMap`; redeeming the resulting
authcode when that `authID` has no auth state dereferences a nil
`*AuthState` and panics instead of returning an error. -/
theorem c10_newauthcode_unchecked_redeem_panics (env : CosEnv) (c : AuthCosigner)
    (authID : String) (sig : CosSig) (now : Int)
    (habs : alookup c.authStateMap authID = none)
    (hparse : sig.parseOk = true)
    (hpay : sig.payload = env.freshCode) :
    (NewAuthcode env c authID).1 = .ok env.freshCode ∧
    (RedeemAuthcode (NewAuthcode env c authID).2 sig now).1 = .panic := by
  refine ⟨rfl, ?_⟩
  simp [NewAuthcode, RedeemAuthcode, hparse, hpay, alookup, habs]

/-- Witness for C10: minting an authcode for the never-initialized
auth_id `"ghost"` succeeds, and redeeming it panics. -/
theorem c10_witness :
    (NewAuthcode envCos cosEmpty "ghost").1 = .ok envCos.freshCode ∧
    (RedeemAuthcode (NewAuthcode envCos cosEmpty "ghost").2
      { parseOk := true, payload := "codeX", sigOk := true } 7).1 = .panic :=
  c10_newauthcode_unchecked_redeem_panics envCos cosEmpty "ghost"
    { parseOk := true, payload := "codeX", sigOk := true } 7 rfl rfl rfl

/-- C7: `InitAuth` on a verified, parsed `InitMFAAuth` message
rejects a timestamp strictly more than 120 seconds in the past with
the too-old error and one strictly more than 120 seconds in the
future with the in-future error; inside the window, whenever the
auth state derives successfully from the PK Token, it returns the
freshly derived auth_id, stores the new `AuthState` under it, and
bumps the monotonic counter. -/
theorem c7_initauth_timestamp_window (env : CosEnv) (c : AuthCosigner) (pkt : PKToken)
    (m : InitMFAAuth) (now : Int) :
    (now - m.timeSigned > 120 →
      (InitAuth env c pkt (some (some m)) now).1 = .err .timestampTooOld) ∧
    (m.timeSigned - now > 120 →
      (InitAuth env c pkt (some (some m)) now).1 = .err .timestampInFuture) ∧
    (now - m.timeSigned ≤ 120 → m.timeSigned - now ≤ 120 →
      ∀ st, NewAuthState pkt m.redirectUri m.nonce = .ok st →
        (InitAuth env c pkt (some (some m)) now).1 =
          .ok (env.hmacHex (c.authIdIter + 1) now) ∧
        alookup (InitAuth env c pkt (some (some m)) now).2.authStateMap
          (env.hmacHex (c.authIdIter + 1) now) = some st ∧
        (InitAuth env c pkt (some (some m)) now).2.authIdIter = c.authIdIter + 1) := by
  refine ⟨?_, ?_, ?_⟩
  · intro h
    simp [InitAuth, h]
  · intro h
    have hnotold : ¬ now - m.timeSigned > 120 := by omega
    simp [InitAuth, hnotold, h]
  · intro h1 h2 st hst
    have hnotold : ¬ now - m.timeSigned > 120 := by omega
    have hnotfut : ¬ m.timeSigned - now > 120 := by omega
    simp [InitAuth, hnotold, hnotfut, hst, CreateAuthID, alookup]

/-- Witness for C7: at `now = 1050`, fifty seconds after the message
timestamp, `InitAuth` succeeds and stores the derived auth state. -/
theorem c7_witness :
    (InitAuth envCos cosEmpty pktCos (some (some mW)) 1050).1 =
      .ok (envCos.hmacHex (cosEmpty.authIdIter + 1) 1050) ∧
    alookup (InitAuth envCos cosEmpty pktCos (some (some mW)) 1050).2.authStateMap
      (envCos.hmacHex (cosEmpty.authIdIter + 1) 1050) = some stCos ∧
    (InitAuth envCos cosEmpty pktCos (some (some mW)) 1050).2.authIdIter =
      cosEmpty.authIdIter + 1 :=
  (c7_initauth_timestamp_window envCos cosEmpty pktCos mW 1050).2.2
    (by simp [mW]) (by simp [mW]) stCos (by rfl)

/-- C9: `verifyCommitment` panics exactly when GQ-commitment mode is
enabled and the token's `aud` claim is present but not a string
(e.g. a JSON list): the unguarded `aud.(string)` assertion panics
instead of returning an error, so verification is total in this mode
only for string-typed `aud` claims. -/
theorem c9_gq_aud_assertion_panics (v : DefaultProviderVerifier) (pkt : PKToken) :
    verifyCommitment v pkt = .panic ↔
      (v.options.gqCommitment = true ∧
       ∃ cs cic h j, pkt.payload = some cs ∧ pkt.cic = some cic ∧
         cic.hash = some h ∧ alookup cs "aud" = some j ∧ j.isString = false) :=
  verifyCommitment_panic_iff v pkt

/-- C6: under the `gq_commitment` option, a successful
`VerifyProvider` certifies that the `aud` claim is a string starting
with `OPENPUBKEY-PKTOKEN:` and that the GQ protected header `cic`
equals the CIC hash; and a missing `aud` claim, a missing `cic`
header, or a marker mismatch each make `VerifyProvider` return an
error (never success, never a panic). -/
theorem c6_gq_commitment_requirements (v : DefaultProviderVerifier) (env : VerifyEnv)
    (pkt : PKToken) (hq : v.options.gqCommitment = true) :
    (VerifyProvider v env pkt = .ok () →
      ∃ cs a cic hsh, pkt.payload = some cs ∧ alookup cs "aud" = some (.str a) ∧
        hasAudMark a = true ∧ pkt.cic = some cic ∧ cic.hash = some hsh ∧
        pkt.gqCicHeader = some (.str hsh)) ∧
    (∀ cs, pkt.payload = some cs → alookup cs "aud" = none →
      ∃ e, VerifyProvider v env pkt = .err e) ∧
    (∀ cs a, pkt.payload = some cs → alookup cs "aud" = some (.str a) →
      pkt.gqCicHeader = none → ∃ e, VerifyProvider v env pkt = .err e) ∧
    (∀ cs a, pkt.payload = some cs → alookup cs "aud" = some (.str a) →
      hasAudMark a = false → ∃ e, VerifyProvider v env pkt = .err e) := by
  have hok : VerifyProvider v env pkt = .ok () →
      ∃ cs a cic hsh, pkt.payload = some cs ∧ alookup cs "aud" = some (.str a) ∧
        hasAudMark a = true ∧ pkt.cic = some cic ∧ cic.hash = some hsh ∧
        pkt.gqCicHeader = some (.str hsh) := fun h =>
    commitment_ok_gq_conditions v pkt hq
      (afterAudience_ok_commitment v env pkt (verifyProvider_ok_afterAudience v env pkt h))
  refine ⟨hok, ?_, ?_, ?_⟩
  · intro cs hpl ha
    cases hres : VerifyProvider v env pkt with
    | err e => exact ⟨e, rfl⟩
    | ok u =>
      cases u
      obtain ⟨cs', a, -, -, hpl', ha', -⟩ := hok hres
      rw [hpl] at hpl'
      cases hpl'
      rw [ha] at ha'
      cases ha'
    | panic =>
      obtain ⟨cs', j, hpl', ha', -⟩ := verifyProvider_panic_aud v env pkt hres
      rw [hpl] at hpl'
      cases hpl'
      rw [ha] at ha'
      cases ha'
  · intro cs a hpl ha hg
    cases hres : VerifyProvider v env pkt with
    | err e => exact ⟨e, rfl⟩
    | ok u =>
      cases u
      obtain ⟨cs', a', cic', hsh', hpl', ha2, hm2, hc2, hh2, hg'⟩ := hok hres
      rw [hg] at hg'
      cases hg'
    | panic =>
      obtain ⟨cs', j, hpl', ha', hjs⟩ := verifyProvider_panic_aud v env pkt hres
      rw [hpl] at hpl'
      cases hpl'
      rw [ha] at ha'
      cases ha'
      simp [Json.isString] at hjs
  · intro cs a hpl ha hm
    cases hres : VerifyProvider v env pkt with
    | err e => exact ⟨e, rfl⟩
    | ok u =>
      cases u
      obtain ⟨cs', a', -, -, hpl', ha', hm', -, -, -⟩ := hok hres
      rw [hpl] at hpl'
      cases hpl'
      rw [ha] at ha'
      cases ha'
      rw [hm] at hm'
      cases hm'
    | panic =>
      obtain ⟨cs', j, hpl', ha', hjs⟩ := verifyProvider_panic_aud v env pkt hres
      rw [hpl] at hpl'
      cases hpl'
      rw [ha] at ha'
      cases ha'
      simp [Json.isString] at hjs

/-- Witness for C6: a GQ-commitment verification that succeeds, from
which the certified audience-marker and commitment facts follow. -/
theorem c6_witness :
    ∃ cs a cic hsh, pktGQ.payload = some cs ∧ alookup cs "aud" = some (.str a) ∧
      hasAudMark a = true ∧ pktGQ.cic = some cic ∧ cic.hash = some hsh ∧
      pktGQ.gqCicHeader = some (.str hsh) :=
  (c6_gq_commitment_requirements vGQ envGQ pktGQ rfl).1 (by rfl)

/-- Distinct `Json` constructors are unequal (string vs array). -/
@[simp] theorem Json.str_ne_arr (s : String) (l : List Json) :
    Json.str s ≠ Json.arr l := fun h => nomatch h

/-- Distinct `Json` constructors are unequal (array vs string). -/
@[simp] theorem Json.arr_ne_str (l : List Json) (s : String) :
    Json.arr l ≠ Json.str s := fun h => nomatch h

/-- Distinct `Json` constructors are unequal (number vs string). -/
@[simp] theorem Json.num_ne_str (n : Int) (s : String) :
    Json.num n ≠ Json.str s := fun h => nomatch h

/-- Distinct `Json` constructors are unequal (number vs array). -/
@[simp] theorem Json.num_ne_arr (n : Int) (l : List Json) :
    Json.num n ≠ Json.arr l := fun h => nomatch h

/-- Distinct `Json` constructors are unequal (boolean vs string). -/
@[simp] theorem Json.bool_ne_str (b : Bool) (s : String) :
    Json.bool b ≠ Json.str s := fun h => nomatch h

/-- Distinct `Json` constructors are unequal (boolean vs array). -/
@[simp] theorem Json.bool_ne_arr (b : Bool) (l : List Json) :
    Json.bool b ≠ Json.arr l := fun h => nomatch h

/-- Distinct `Json` constructors are unequal (null vs string). -/
@[simp] theorem Json.null_ne_str (s : String) :
    Json.null ≠ Json.str s := fun h => nomatch h

/-- Distinct `Json` constructors are unequal (null vs array). -/
@[simp] theorem Json.null_ne_arr (l : List Json) :
    Json.null ≠ Json.arr l := fun h => nomatch h

/-- Counterexample to C4 as stated: a PK Token whose commitment
matches the CIC hash and whose provider signature does not verify
(every signature oracle fails), on which `VerifyProvider`
nevertheless returns success — not a signature-verification error —
because the ES256 algorithm escapes the `switch`. -/
theorem c4_counterexample_no_sig_error :
    verifyCommitment vDef pktES = .ok () ∧
    envNoSig.rs256VerifyOK = false ∧
    envNoSig.gqVerify = some false ∧
    VerifyProvider vDef envNoSig pktES = .ok () :=
  ⟨rfl, rfl, rfl, rfl⟩

/-- C4 (amended): for provider algorithms RS256 (with `GQOnly`
unset, discovery succeeding, the RSA check failing) and GQ256 (with
the GQ check failing), when the pre-signature checks pass and the
commitment matches, `VerifyProvider` reports the provider-signature
error and never the commitment-mismatch error: signature
verification is evaluated before commitment binding. -/
theorem c4_amended_sig_checked_before_commitment (v : DefaultProviderVerifier)
    (env : VerifyEnv) (pkt : PKToken)
    (hgc : v.options.gqCommitment = false)
    (haud : audPasses v pkt)
    (hcm : verifyCommitment v pkt = .ok ())
    (hsig : (pkt.providerAlg = some SigAlg.RS256 ∧ v.options.gqOnly = false ∧
             env.discoverOK = true ∧ env.rs256VerifyOK = false) ∨
            (pkt.providerAlg = some SigAlg.GQ256 ∧
             verifyGQSig v env pkt = .err VErr.gqSigInvalid)) :
    (VerifyProvider v env pkt = .err .opSigInvalid ∨
     VerifyProvider v env pkt = .err .gqSigInvalid) ∧
    VerifyProvider v env pkt ≠ .err .commitmentMismatch := by
  have hres : VerifyProvider v env pkt = .err .opSigInvalid ∨
      VerifyProvider v env pkt = .err .gqSigInvalid := by
    rw [verifyProvider_eq_after v env pkt hgc haud]
    unfold verifyAfterAudience
    rcases hsig with ⟨halg, hgqo, hdisc, hrs⟩ | ⟨halg, hgq⟩
    · left
      rw [halg]
      have hsw : opSignatureSwitch v env pkt SigAlg.RS256 = .err .opSigInvalid := by
        unfold opSignatureSwitch
        simp [hdisc, hrs]
      simp [hgqo, hsw]
    · right
      rw [halg]
      simp [opSignatureSwitch, hgq]
  refine ⟨hres, ?_⟩
  rcases hres with h | h <;> rw [h] <;> decide

/-- Witness for C4 (amended): an RS256 PK Token with matching
commitment whose RSA signature check fails is rejected with the
signature error, not a commitment mismatch. -/
theorem c4_amended_witness :
    (VerifyProvider vGoogle envBadSig pktEvilIss = .err .opSigInvalid ∨
     VerifyProvider vGoogle envBadSig pktEvilIss = .err .gqSigInvalid) ∧
    VerifyProvider vGoogle envBadSig pktEvilIss ≠ .err .commitmentMismatch :=
  c4_amended_sig_checked_before_commitment vGoogle envBadSig pktEvilIss rfl
    (Or.inl rfl) rfl (Or.inl ⟨rfl, rfl, rfl, rfl⟩)

/-- Counterexample to C5 as stated: with `aud = ["cid", 42]`, a
heterogeneous list that is not a list of strings, `verifyAudience`
succeeds for client ID `"cid"`, while the spec's audience rule does
not accept this value. -/
theorem c5_counterexample_heterogeneous_list :
    verifyAudience pktHet "cid" = .ok () ∧
    audSpecAccepts (alookup claimsHet "aud") "cid" = false :=
  ⟨rfl, rfl⟩

/-- C5 (amended): audience verification succeeds iff the `aud` claim
is the client-ID string, or a list in which the client ID occurs as
a string element with only string elements before it; it panics iff
the list has a non-string element with only non-matching string
elements before it; every other shape is an error. -/
theorem c5_amended_audience_characterization (pkt : PKToken)
    (cs : List (String × Json)) (cid : String) (hpl : pkt.payload = some cs) :
    (verifyAudience pkt cid = .ok () ↔
      alookup cs "aud" = some (.str cid) ∨
      ∃ l pre post, alookup cs "aud" = some (.arr l) ∧
        l = pre ++ Json.str cid :: post ∧ ∀ x ∈ pre, x.isString = true) ∧
    (verifyAudience pkt cid = .panic ↔
      ∃ l pre x post, alookup cs "aud" = some (.arr l) ∧ l = pre ++ x :: post ∧
        (∀ y ∈ pre, y.isString = true) ∧ x.isString = false ∧
        Json.str cid ∉ pre) := by
  unfold verifyAudience
  simp only [hpl]
  cases ha : alookup cs "aud" with
  | none => simp
  | some j =>
    cases j with
    | str a =>
      by_cases he : a = cid
      · subst he
        simp
      · simp [he]
    | arr l =>
      constructor
      · rw [audScan_ok_iff]
        simp
      · rw [audScan_panic_iff]
        simp
    | num n => simp
    | bool b => simp
    | null => simp

/-- Witness for C5 (amended): `aud = ["other", "cid2"]` is accepted
for client ID `"cid2"`. -/
theorem c5_amended_witness :
    verifyAudience pktTwo "cid2" = .ok () :=
  (c5_amended_audience_characterization pktTwo claimsTwo "cid2" rfl).1.mpr
    (Or.inr ⟨[Json.str "other", Json.str "cid2"], [Json.str "other"], [], rfl, rfl,
      by intro x hx
         rw [List.mem_singleton.mp hx]
         rfl⟩)
